import Mathlib

/-!
Shallow embedding of the libipsw sources:
- src/internal/download/ipsw_me.go   (namespace Download)
- src/pkg/xcode/xcode.go             (namespace Xcode)
- src/cmd/ipsw/cmd/download/download_dev.go (namespace DevCmd)

Go error values are modelled as their message strings; fallible Go functions
returning (T, error) become Except String T.  The HTTP transport is abstracted
as a record of endpoint results (the combined outcome of http.Get, the status
check, the body read and json.Unmarshal for each endpoint of the ipsw.me API).
-/

deriving instance DecidableEq for Except

/-- Go strings.Contains(s, substr): substr occurs as a contiguous substring of s.
All strings involved here are ASCII, so character-level containment coincides
with Go byte-level containment. -/
def goStringsContains (s substr : String) : Bool :=
  decide (substr.data <:+: s.data)

/-- Go byte-wise lexicographic string comparison, on the character lists (all
strings involved are ASCII, where character order and byte order agree). -/
def goCharsLess : List Char → List Char → Bool
  | [], [] => false
  | [], _ :: _ => true
  | _ :: _, [] => false
  | c :: cs, d :: ds => if c < d then true else if d < c then false else goCharsLess cs ds

/-- Go string less-than: a < b. -/
def goStringLess (a b : String) : Bool := goCharsLess a.data b.data

namespace Download

/-- The IPSW struct of src/internal/download/ipsw_me.go.  The two time.Time
fields are modelled as their timestamp strings. -/
structure IPSW where
  identifier : String := ""
  version : String := ""
  buildID : String := ""
  sha1 : String := ""
  md5 : String := ""
  fileSize : Int := 0
  url : String := ""
  releaseDate : String := ""
  uploadDate : String := ""
  signed : Bool := false
  deriving DecidableEq, Repr

/-- The Device struct of src/internal/download/ipsw_me.go. -/
structure Device where
  name : String := ""
  identifier : String := ""
  boardConfig : String := ""
  platform : String := ""
  cpID : Int := 0
  bdID : Int := 0
  firmwares : List IPSW := []
  deriving DecidableEq, Repr

/-- Abstraction of the ipsw.me REST API.  Each field is the decoded outcome of
one endpoint: transport errors, non-200 statuses (message "api returned
status: ...") and json.Unmarshal failures are all folded into the error
string, exactly as the Go functions fold them into a returned error value. -/
structure Remote where
  allDevices : Except String (List Device)
  deviceByIdentifier : String → Except String Device
  ipswsByVersion : String → Except String (List IPSW)

/-- GetAllDevices: GET devices, decoded. -/
def GetAllDevices (remote : Remote) : Except String (List Device) :=
  remote.allDevices

/-- GetDevice: GET device/{identifier}, decoded. -/
def GetDevice (remote : Remote) (identifier : String) : Except String Device :=
  remote.deviceByIdentifier identifier

/-- GetDeviceIPSWs: calls GetDevice and projects out the Firmwares field,
propagating a GetDevice error unchanged. -/
def GetDeviceIPSWs (remote : Remote) (identifier : String) : Except String (List IPSW) :=
  match GetDevice remote identifier with
  | Except.error e => Except.error e
  | Except.ok d => Except.ok d.firmwares

/-- Spec-side definition, written from the words of the spec: GetDeviceFirmwares
is the "convenience projection of GetDevice(...).Firmwares".  Compared against
GetDeviceIPSWs for claim C6. -/
def GetDeviceFirmwaresSpec (remote : Remote) (identifier : String) : Except String (List IPSW) :=
  Except.map (fun d => d.firmwares) (GetDevice remote identifier)

/-- GetAllIPSW: GET ipsw/{version}, decoded. -/
def GetAllIPSW (remote : Remote) (version : String) : Except String (List IPSW) :=
  remote.ipswsByVersion version

/-- The reverse index loop of GetVersion (for i := len(devices)-1; i >= 0; i--),
embedded as structural recursion over the reversed catalog: for each device it
re-fetches device/{identifier} and scans its firmware list for the build ID,
returning the version of the first match; any fetch failure aborts the scan
with that error; an exhausted scan produces the literal not-found error of the
source. -/
def GetVersionScan (remote : Remote) (buildID : String) : List Device → Except String String
  | [] => Except.error ("build did not a version")
  | d :: rest =>
    match remote.deviceByIdentifier d.identifier with
    | Except.error e => Except.error e
    | Except.ok dev =>
      match dev.firmwares.find? (fun i => i.buildID == buildID) with
      | some i => Except.ok i.version
      | none => GetVersionScan remote buildID rest

/-- GetVersion: fetches the full catalog, then scans it in reverse order, one
device fetch per scanned device. -/
def GetVersion (remote : Remote) (buildID : String) : Except String String :=
  match GetAllDevices remote with
  | Except.error e => Except.error ("failed to get all devices from ipsw.me API: " ++ e)
  | Except.ok devices => GetVersionScan remote buildID devices.reverse

/-- GetBuildID: fetches GET ipsw/{version} and linearly scans for the first
firmware whose Identifier matches, returning its BuildID; the not-found error
carries the version and the device identifier. -/
def GetBuildID (remote : Remote) (version identifier : String) : Except String String :=
  match remote.ipswsByVersion version with
  | Except.error e => Except.error e
  | Except.ok ipsws =>
    match ipsws.find? (fun i => i.identifier == identifier) with
    | some i => Except.ok i.buildID
    | none =>
      Except.error ("no build found for version " ++ version ++ " and device " ++ identifier)

/-- Synthetic two-device catalog used as a concrete input: both devices carry a
firmware with the same build ID but different versions. -/
def demoIPSWA : IPSW := { identifier := "iPhoneA,1", version := "1.0", buildID := "20X99" }

/-- Second synthetic firmware, same build ID, different version. -/
def demoIPSWB : IPSW := { identifier := "iPhoneB,1", version := "2.0", buildID := "20X99" }

/-- First (earlier in forward catalog order) synthetic device. -/
def demoDeviceA : Device := { name := "Demo A", identifier := "iPhoneA,1", firmwares := [demoIPSWA] }

/-- Second (later in forward catalog order) synthetic device. -/
def demoDeviceB : Device := { name := "Demo B", identifier := "iPhoneB,1", firmwares := [demoIPSWB] }

/-- The synthetic catalog, forward order. -/
def demoCatalog : List Device := [demoDeviceA, demoDeviceB]

/-- A consistent remote for the synthetic catalog: per-identifier fetches
return the matching catalog record, unknown identifiers get a 404-style error,
and GET ipsw/{version} serves the matching firmware lists. -/
def demoRemote : Remote where
  allDevices := Except.ok demoCatalog
  deviceByIdentifier := fun idf =>
    if idf == "iPhoneA,1" then Except.ok demoDeviceA
    else if idf == "iPhoneB,1" then Except.ok demoDeviceB
    else Except.error ("api returned status: 404 Not Found")
  ipswsByVersion := fun v =>
    if v == "1.0" then Except.ok [demoIPSWA]
    else if v == "2.0" then Except.ok [demoIPSWB]
    else Except.ok []

end Download

namespace Xcode

/-- The DeviceTrait struct of src/pkg/xcode/xcode.go.  Field defaults are the
Go zero values. -/
structure DeviceTrait where
  deviceTraitSetID : Int := 0
  preferredArchitecture : String := ""
  artworkDeviceIdiom : String := ""
  artworkHostedIdioms : String := ""
  artworkScaleFactor : Int := 0
  artworkDeviceSubtype : Int := 0
  artworkDisplayGamut : String := ""
  artworkDynamicDisplayMode : String := ""
  devicePerformanceMemoryClass : Int := 0
  graphicsFeatureSetClass : String := ""
  graphicsFeatureSetFallbacks : String := ""
  deriving DecidableEq, Repr

/-- The Device struct of src/pkg/xcode/xcode.go (trait dataset records). -/
structure Device where
  target : String := ""
  targetType : String := ""
  targetVariant : String := ""
  platform : String := ""
  productType : String := ""
  productDescription : String := ""
  compatibleDeviceFallback : String := ""
  deviceTrait : DeviceTrait := {}
  deviceTraitSet : Int := 0
  deriving DecidableEq, Repr

/-- GetDevices: gunzip the embedded device_traits.gz bytes, then JSON-decode.
The embedded bytes and the gzip/JSON pipeline are fixed at build time and not
part of the sources, so they are abstracted: gunzipResult is the outcome of
gzip.NewReader over the embedded bytes (its error is returned unwrapped, as in
the source) and jsonDecode is the JSON codec applied to the decompressed text
(its error is wrapped with the literal message of the source).  GetDevices
performs no caching and mutates nothing: it is a pure function of these two
build-time inputs. -/
def GetDevices (gunzipResult : Except String String)
    (jsonDecode : String → Except String (List Device)) : Except String (List Device) :=
  match gunzipResult with
  | Except.error e => Except.error e
  | Except.ok text =>
    match jsonDecode text with
    | Except.error e => Except.error ("failed unmarshaling device_traits.gz data: " ++ e)
    | Except.ok devices => Except.ok devices

/-- GetDeviceForProd: loads the dataset and returns the first record whose
ProductType matches, or the literal not-found error. -/
def GetDeviceForProd (gunzipResult : Except String String)
    (jsonDecode : String → Except String (List Device)) (prod : String) : Except String Device :=
  match GetDevices gunzipResult jsonDecode with
  | Except.error e => Except.error e
  | Except.ok devices =>
    match devices.find? (fun d => d.productType == prod) with
    | some d => Except.ok d
    | none => Except.error ("device not found")

/-- GetDeviceForModel: loads the dataset and returns the first record whose
Target matches, or the literal not-found error. -/
def GetDeviceForModel (gunzipResult : Except String String)
    (jsonDecode : String → Except String (List Device)) (model : String) : Except String Device :=
  match GetDevices gunzipResult jsonDecode with
  | Except.error e => Except.error e
  | Except.ok devices =>
    match devices.find? (fun d => d.target == model) with
    | some d => Except.ok d
    | none => Except.error ("device not found")

/-- Modelled from the spec: the family/major/minor tuple produced by
utils.DeconstructDevice, which lives in internal/utils and is not among the
sources.  The spec describes ByProductType as ordering by "a deconstructed
family/major/minor tuple", e.g. "iPhone10,1" has family "iPhone", major 10,
minor 1. -/
structure DeconstructedDevice where
  family : String
  major : Nat
  minor : Nat
  deriving DecidableEq, Repr

/-- Decimal value of a digit sequence (the numeric parse inside the modelled
DeconstructDevice). -/
def digitsToNat (l : List Char) : Nat :=
  l.foldl (fun n c => 10 * n + (c.toNat - 48)) 0

/-- Modelled from the spec: utils.DeconstructDevice (internal/utils, not in the
sources) splits a product type such as "iPhone10,1" into the leading non-digit
family, the digits before the comma (major) and the digits after it (minor). -/
def DeconstructDevice (prod : String) : DeconstructedDevice :=
  let cs := prod.data
  let family := cs.takeWhile (fun c => !c.isDigit)
  let rest := cs.dropWhile (fun c => !c.isDigit)
  let majorDigits := rest.takeWhile (fun c => c != ',')
  let minorDigits := (rest.dropWhile (fun c => c != ',')).drop 1
  ⟨String.mk family, digitsToNat majorDigits, digitsToNat minorDigits⟩

/-- Go fmt.Sprintf with verb %02d on a natural number: zero-padded to width
two, wider numbers printed in full. -/
def pad2 (n : Nat) : String :=
  if n < 10 then "0" ++ Nat.repr n else Nat.repr n

/-- The composite sort key fmt.Sprintf("%s%02d%02d", family, major, minor)
built by ByProductType.Less. -/
def productTypeKey (prod : String) : String :=
  let d := DeconstructDevice prod
  d.family ++ pad2 d.major ++ pad2 d.minor

/-- ByProductType.Less of src/pkg/xcode/xcode.go: compares the composite keys
of the two product types with the Go string less-than (lexicographic). -/
def byProductTypeLess (i j : Device) : Bool :=
  goStringLess (productTypeKey i.productType) (productTypeKey j.productType)

end Xcode

/-- Insert into a list sorted by a strict Bool order (helper for sortBy). -/
def insertBy {α : Type} (less : α → α → Bool) (a : α) : List α → List α
  | [] => [a]
  | b :: l => if less b a then b :: insertBy less a l else a :: b :: l

/-- Insertion sort by a strict Bool order; stands in for Go sort.Sort, whose
result agrees with this one whenever the keys are pairwise distinct. -/
def sortBy {α : Type} (less : α → α → Bool) : List α → List α
  | [] => []
  | a :: l => insertBy less a (sortBy less l)

namespace DevCmd

/-- download.DevCreds: the credential pair stored in the vault. -/
structure DevCreds where
  username : String := ""
  password : String := ""
  deriving DecidableEq, Repr

/-- Log levels of the apex/log calls appearing in devCmd.RunE. -/
inductive LogLevel
  | error
  | warn
  | info
  deriving DecidableEq, Repr

/-- One emitted log line. -/
structure LogEvent where
  level : LogLevel
  message : String
  deriving DecidableEq, Repr

/-- Outcome of one survey prompt: the value typed, a terminal interrupt
(Ctrl-C), or a prompt failure. -/
inductive PromptResult
  | value (s : String)
  | interrupted
  | failed (e : String)
  deriving DecidableEq, Repr

/-- Result of one invocation of the FilePasswordFunc callback: os.Exit(0)
after an interrupt, an error return, or a password value. -/
inductive CallbackOutcome
  | exited
  | failed (e : String)
  | password (s : String)
  deriving DecidableEq, Repr

/-- Trace of one FilePasswordFunc invocation: its outcome, the prompt message
shown (none when no prompt occurred), and the log lines emitted. -/
structure CallbackRun where
  outcome : CallbackOutcome
  promptedWith : Option String
  logs : List LogEvent
  deriving DecidableEq, Repr

/-- filepath.Join(home, ".ipsw", vaultName), modelled as "/"-separated
concatenation.  download.VaultName is a constant of internal/download, which
is not among the sources, so the vault file name stays a parameter. -/
def vaultPath (home vaultName : String) : String :=
  home ++ "/.ipsw/" ++ vaultName

/-- The FilePasswordFunc closure of devCmd.RunE (download_dev.go lines
125-144).  When the keychain setting is empty it builds the prompt message --
the decrypt wording, overwritten with the encrypt wording when the os.Stat
existence check it performs at that moment reports the vault file absent --
and runs the survey password prompt; otherwise it returns the pre-seeded
keychain value without prompting.  vaultExistsAtCall is the result of that
per-invocation os.Stat; userInput is the outcome of the survey prompt. -/
def filePasswordFunc (home vaultName keychain : String) (vaultExistsAtCall : Bool)
    (userInput : PromptResult) : CallbackRun :=
  if keychain.length = 0 then
    let msg := "Enter a password to decrypt your credentials vault: " ++ vaultPath home vaultName
    let msg := if vaultExistsAtCall then msg
      else "Enter a password to encrypt your credentials to vault: " ++ vaultPath home vaultName
    match userInput with
    | PromptResult.interrupted =>
      ⟨CallbackOutcome.exited, some msg, [⟨LogLevel.warn, "Exiting..."⟩]⟩
    | PromptResult.failed e => ⟨CallbackOutcome.failed e, some msg, []⟩
    | PromptResult.value s => ⟨CallbackOutcome.password s, some msg, []⟩
  else
    ⟨CallbackOutcome.password keychain, none, []⟩

/-- keyring.Open (download_dev.go lines 120-145) builds the vault config whose
FilePasswordFunc is the closure above.  Open itself performs no existence
check: the returned callback samples the filesystem (the Bool argument) each
time it is invoked, i.e. at prompt time. -/
def keyringOpenPasswordCallback (home vaultName keychain : String) :
    Bool → PromptResult → CallbackRun :=
  filePasswordFunc home vaultName keychain

/-- Effect trace of a run of the credential-acquisition section that reaches
app.Login: the credentials handed to Login, the log lines emitted, and whether
ring.Get / ring.Set were invoked. -/
structure FlowResult where
  loginUsername : String
  loginPassword : String
  logs : List LogEvent
  vaultGetCalled : Bool
  vaultSetCalled : Bool
  deriving DecidableEq, Repr

/-- How the credential-acquisition section ends: os.Exit(0) after a prompt
interrupt, an early error return from RunE, or reaching app.Login. -/
inductive FlowOutcome
  | exited0 (logs : List LogEvent)
  | errored (e : String) (logs : List LogEvent)
  | login (r : FlowResult)
  deriving DecidableEq, Repr

/-- Trace model of the credential-acquisition section of devCmd.RunE
(download_dev.go lines 163-216).  username/password are the pre-seeded
settings values; ringGet is the outcome of ring.Get(download.VaultName), its
payload being what json.Unmarshal yields on the stored Data bytes; promptUser
and promptPass are the outcomes of the two survey prompts (consulted only for
the fields that are empty); ringSetResult is the outcome of ring.Set, whose
value the source discards without inspecting it (json.Marshal of two string
fields cannot fail and is dropped from the model). -/
def credFlow (username password : String)
    (ringGet : Except String (Except String DevCreds))
    (promptUser promptPass : PromptResult)
    (ringSetResult : Except String Unit) : FlowOutcome :=
  if username.length = 0 ∨ password.length = 0 then
    match ringGet with
    | Except.error e =>
      let logs := [(⟨LogLevel.error, "failed to get credentials from vault: " ++ e⟩ : LogEvent)]
      match (if username.length = 0 then promptUser else PromptResult.value username) with
      | PromptResult.interrupted => FlowOutcome.exited0 (logs ++ [⟨LogLevel.warn, "Exiting..."⟩])
      | PromptResult.failed pe => FlowOutcome.errored pe logs
      | PromptResult.value u =>
        match (if password.length = 0 then promptPass else PromptResult.value password) with
        | PromptResult.interrupted => FlowOutcome.exited0 (logs ++ [⟨LogLevel.warn, "Exiting..."⟩])
        | PromptResult.failed pe => FlowOutcome.errored pe logs
        | PromptResult.value p => FlowOutcome.login ⟨u, p, logs, true, true⟩
    | Except.ok decoded =>
      match decoded with
      | Except.error e => FlowOutcome.errored e []
      | Except.ok dcreds => FlowOutcome.login ⟨dcreds.username, dcreds.password, [], true, false⟩
  else
    FlowOutcome.login ⟨username, password, [], false, false⟩

/-- The survey select option for OS downloads (download_dev.go line 234). -/
def osOptionString : String := "OSes (iOS, macOS, tvOS...)"

/-- The survey select option for More downloads (download_dev.go line 234). -/
def moreOptionString : String := "More (XCode, KDKs...)"

/-- Selection of dlType in devCmd.RunE (download_dev.go lines 228-246): the
more flag forces "more"; otherwise dlType is the literal option string chosen
in the survey select, mapped to "more" when it contains "More" and left
unchanged otherwise. -/
def resolveDlType (more : Bool) (selection : String) : String :=
  if more then "more"
  else if goStringsContains selection "More" then "more"
  else selection

/-- fmt.Sprintf("dev_portal_%s.json", dlType) (download_dev.go line 253). -/
def devPortalJsonName (dlType : String) : String :=
  "dev_portal_" ++ dlType ++ ".json"

/-- The JSON output path (download_dev.go lines 252-253): a file is written
only when the output setting is non-empty; filepath.Join is modelled as "/"
concatenation. -/
def devJsonOutputPath (output dlType : String) : Option String :=
  if output.length = 0 then none
  else some (output ++ "/" ++ devPortalJsonName dlType)

end DevCmd

/-- Synthetic trait dataset: two records sharing a product type, to exercise
the first-match rule. -/
def xcodeDemoDataset : List Xcode.Device :=
  [{ target := "J71AP", productType := "iPad4,1" },
   { target := "J72AP", productType := "iPad4,1" }]

/-- Synthetic gunzip outcome standing for the embedded compressed bytes. -/
def xcodeDemoGunzip : Except String String := Except.ok ("demo dataset text")

/-- Synthetic JSON codec decoding the synthetic text to the demo dataset. -/
def xcodeDemoDecode : String → Except String (List Xcode.Device) :=
  fun _ => Except.ok xcodeDemoDataset

/-- The three product types of the C5 ordering example, unsorted. -/
def xcodeC5List : List Xcode.Device :=
  [{ productType := "iPhone10,1" }, { productType := "iPhone9,2" }, { productType := "iPad7,1" }]

/-! ## Shared helper lemmas -/

/-- find? returns the head of the first matching split. -/
theorem find_first {α : Type} (p : α → Bool) (pre : List α) (a : α) (post : List α)
    (hpre : ∀ x ∈ pre, p x = false) (ha : p a = true) :
    (pre ++ a :: post).find? p = some a := by
  induction pre with
  | nil => simp [List.find?_cons, ha]
  | cons b l ih =>
    have hb : p b = false := hpre b (List.mem_cons_self b l)
    rw [List.cons_append, List.find?_cons_of_neg _ (by simp [hb])]
    exact ih fun x hx => hpre x (List.mem_cons_of_mem _ hx)

/-- A string contains any middle factor of an append. -/
theorem goStringsContains_append (a v b : String) : goStringsContains (a ++ v ++ b) v = true := by
  apply decide_eq_true
  exact ⟨a.data, b.data, by simp [String.data_append]⟩

/-- Unfolding equation of findSome? on a cons cell. -/
theorem findSome_cons_eq {α β : Type} (f : α → Option β) (a : α) (l : List α) :
    (a :: l).findSome? f = match f a with | some b => some b | none => l.findSome? f := rfl

/-- findSome? misses when the function misses everywhere. -/
theorem findSome_eq_none {α β : Type} (f : α → Option β) :
    ∀ (l : List α), (∀ a ∈ l, f a = none) → l.findSome? f = none
  | [], _ => rfl
  | a :: l, h => by
    rw [findSome_cons_eq, h a (List.mem_cons_self a l)]
    exact findSome_eq_none f l (fun x hx => h x (List.mem_cons_of_mem _ hx))

/-- The reverse scan of GetVersion, characterised: over a catalog whose
per-identifier fetches are consistent, it is the first hit of findSome? on the
list it is given, with the literal not-found error on a full miss. -/
theorem getVersionScan_findSome (remote : Download.Remote) (buildID : String) :
    ∀ (l : List Download.Device),
      (∀ d ∈ l, remote.deviceByIdentifier d.identifier = Except.ok d) →
      Download.GetVersionScan remote buildID l =
        match l.findSome? (fun d =>
            Option.map (fun i => i.version) (d.firmwares.find? (fun i => i.buildID == buildID))) with
        | some v => Except.ok v
        | none => Except.error ("build did not a version")
  | [], _ => rfl
  | d :: rest, h => by
    have hd := h d (List.mem_cons_self d rest)
    have ih := getVersionScan_findSome remote buildID rest
      (fun x hx => h x (List.mem_cons_of_mem _ hx))
    simp only [Download.GetVersionScan, hd]
    cases hf : d.firmwares.find? (fun i => i.buildID == buildID) with
    | some i => simp [findSome_cons_eq, hf]
    | none => simp [findSome_cons_eq, hf, ih]

/-! ## Claim theorems -/

/-- C1: GetVersion scans the device catalog in strictly reverse order (last
catalog entry first), fetching each scanned device by identifier, and returns
the Version of the first firmware record whose BuildID matches in that scan
order; it fails with the not-found error only after the entire catalog has
been scanned without a match.  In particular, of two devices sharing the
buildID, the one later in forward catalog order (scanned first) wins. -/
theorem c1_getVersion_reverse_scan (remote : Download.Remote)
    (catalog : List Download.Device) (buildID : String)
    (hall : remote.allDevices = Except.ok catalog)
    (hdev : ∀ d ∈ catalog, remote.deviceByIdentifier d.identifier = Except.ok d) :
    Download.GetVersion remote buildID =
      match catalog.reverse.findSome? (fun d =>
          Option.map (fun i => i.version) (d.firmwares.find? (fun i => i.buildID == buildID))) with
      | some v => Except.ok v
      | none => Except.error ("build did not a version") := by
  unfold Download.GetVersion Download.GetAllDevices
  rw [hall]
  exact getVersionScan_findSome remote buildID catalog.reverse
    (fun d hd => hdev d (List.mem_reverse.mp hd))

/-- C1 witness: in the synthetic two-device catalog whose devices share build
ID 20X99, the device later in forward order (Demo B, version 2.0) determines
the result. -/
theorem c1_witness : Download.GetVersion Download.demoRemote ("20X99") = Except.ok ("2.0") := by
  have h := c1_getVersion_reverse_scan Download.demoRemote Download.demoCatalog ("20X99")
    rfl (by decide)
  rw [h]
  rfl

/-- C2 counterexample: with the more flag unset and the OSes option selected,
dlType stays the literal option string, so the JSON output file is named
dev_portal_OSes (iOS, macOS, tvOS...).json -- it is neither
dev_portal_os.json nor dev_portal_more.json, refuting that the kind in the
file name is always exactly "os" or "more". -/
theorem c2_counterexample :
    DevCmd.resolveDlType false DevCmd.osOptionString = ("OSes (iOS, macOS, tvOS...)") ∧
    DevCmd.devPortalJsonName (DevCmd.resolveDlType false DevCmd.osOptionString) =
      ("dev_portal_OSes (iOS, macOS, tvOS...).json") ∧
    DevCmd.devPortalJsonName (DevCmd.resolveDlType false DevCmd.osOptionString) ≠
      ("dev_portal_os.json") ∧
    DevCmd.devPortalJsonName (DevCmd.resolveDlType false DevCmd.osOptionString) ≠
      ("dev_portal_more.json") := by
  refine ⟨?_, ?_, ?_, ?_⟩ <;> decide

/-- C2 amended: when JSON output goes to a non-empty output directory, the
file is named dev_portal_<dlType>.json where dlType maps from the selection as
follows -- it is "more" exactly when the More download type is selected (by
the more flag or by choosing the More prompt option), and it is the literal
prompt option text "OSes (iOS, macOS, tvOS...)" when the OS type is selected
without the flag; the kind "os" never occurs. -/
theorem c2_amended (more : Bool) (selection output : String)
    (hout : output.length ≠ 0) :
    (more = true ∨ selection = DevCmd.moreOptionString →
      DevCmd.devJsonOutputPath output (DevCmd.resolveDlType more selection) =
        some (output ++ "/" ++ "dev_portal_more.json")) ∧
    (more = false → selection = DevCmd.osOptionString →
      DevCmd.devJsonOutputPath output (DevCmd.resolveDlType more selection) =
        some (output ++ "/" ++ "dev_portal_OSes (iOS, macOS, tvOS...).json")) := by
  unfold DevCmd.devJsonOutputPath
  rw [if_neg hout]
  constructor
  · intro hsel
    cases more with
    | false =>
      cases hsel with
      | inl h1 => exact absurd h1 (by simp)
      | inr h2 => subst h2; rfl
    | true => rfl
  · intro hm hs
    subst hm
    subst hs
    rfl

/-- C2 witness: concrete instances of both directions of the amended mapping
with output directory "out" -- the More prompt selection yields
dev_portal_more.json and the OSes prompt selection yields the literal-option
file name. -/
theorem c2_witness :
    DevCmd.devJsonOutputPath ("out") (DevCmd.resolveDlType false DevCmd.moreOptionString) =
      some (("out" : String) ++ "/" ++ "dev_portal_more.json") ∧
    DevCmd.devJsonOutputPath ("out") (DevCmd.resolveDlType false DevCmd.osOptionString) =
      some (("out" : String) ++ "/" ++ "dev_portal_OSes (iOS, macOS, tvOS...).json") :=
  ⟨(c2_amended false DevCmd.moreOptionString ("out") (by decide)).1 (Or.inr rfl),
   (c2_amended false DevCmd.osOptionString ("out") (by decide)).2 rfl rfl⟩

/-- C3 counterexample: a run in which the vault read fails, both credentials
are prompted, and ring.Set fails with a permission error still reaches Login,
and its log trace is exactly the single vault-read error line: no warning (no
log line at all) reports the Set failure, refuting the part of the claim that
says the Set failure is reported as a non-fatal warning. -/
theorem c3_counterexample :
    DevCmd.credFlow ("") ("") (Except.error ("keyring: item not found"))
        (DevCmd.PromptResult.value ("user@example.com")) (DevCmd.PromptResult.value ("hunter2"))
        (Except.error ("open vault: permission denied")) =
      DevCmd.FlowOutcome.login
        { loginUsername := "user@example.com", loginPassword := "hunter2",
          logs := [{ level := DevCmd.LogLevel.error,
                     message := "failed to get credentials from vault: keyring: item not found" }],
          vaultGetCalled := true, vaultSetCalled := true } ∧
    (∀ l ∈ [({ level := DevCmd.LogLevel.error,
               message := "failed to get credentials from vault: keyring: item not found" } :
              DevCmd.LogEvent)],
        l.level ≠ DevCmd.LogLevel.warn ∧
        goStringsContains l.message ("permission denied") = false) := by
  constructor
  · rfl
  · decide

/-- C3 amended: a failure of ring.Set does not abort the login flow -- the run
still reaches Login with the in-memory username and password, and its outcome
does not depend on the Set result at all -- but the failure is silently
discarded: the source never inspects the Set return value, so nothing (in
particular no warning) is logged about it. -/
theorem c3_amended (username password getErr promptU promptP : String)
    (setRes setRes2 : Except String Unit)
    (h : username.length = 0 ∨ password.length = 0) :
    DevCmd.credFlow username password (Except.error getErr)
        (DevCmd.PromptResult.value promptU) (DevCmd.PromptResult.value promptP) setRes =
      DevCmd.credFlow username password (Except.error getErr)
        (DevCmd.PromptResult.value promptU) (DevCmd.PromptResult.value promptP) setRes2 ∧
    DevCmd.credFlow username password (Except.error getErr)
        (DevCmd.PromptResult.value promptU) (DevCmd.PromptResult.value promptP) setRes =
      DevCmd.FlowOutcome.login
        { loginUsername := if username.length = 0 then promptU else username,
          loginPassword := if password.length = 0 then promptP else password,
          logs := [{ level := DevCmd.LogLevel.error,
                     message := "failed to get credentials from vault: " ++ getErr }],
          vaultGetCalled := true, vaultSetCalled := true } ∧
    (∀ l ∈ [({ level := DevCmd.LogLevel.error,
               message := "failed to get credentials from vault: " ++ getErr } :
              DevCmd.LogEvent)],
        l.level ≠ DevCmd.LogLevel.warn) := by
  refine ⟨rfl, ?_, ?_⟩
  · unfold DevCmd.credFlow
    rw [if_pos h]
    by_cases hu : username.length = 0
    · by_cases hp : password.length = 0
      · simp [hu, hp]
      · simp [hu, hp]
    · by_cases hp : password.length = 0
      · simp [hu, hp]
      · exact absurd h (by simp [hu, hp])
  · intro l hl
    rw [List.mem_singleton] at hl
    subst hl
    simp

/-- C3 witness: the amended statement at concrete inputs (empty settings,
failing vault read, prompted credentials "u"/"p", Set failing with disk
full). -/
theorem c3_witness :
    DevCmd.credFlow ("") ("") (Except.error ("vault read failed"))
        (DevCmd.PromptResult.value ("u")) (DevCmd.PromptResult.value ("p"))
        (Except.error ("disk full")) =
      DevCmd.credFlow ("") ("") (Except.error ("vault read failed"))
        (DevCmd.PromptResult.value ("u")) (DevCmd.PromptResult.value ("p"))
        (Except.ok ()) ∧
    DevCmd.credFlow ("") ("") (Except.error ("vault read failed"))
        (DevCmd.PromptResult.value ("u")) (DevCmd.PromptResult.value ("p"))
        (Except.error ("disk full")) =
      DevCmd.FlowOutcome.login
        { loginUsername := if ("" : String).length = 0 then "u" else "",
          loginPassword := if ("" : String).length = 0 then "p" else "",
          logs := [{ level := DevCmd.LogLevel.error,
                     message := "failed to get credentials from vault: " ++ "vault read failed" }],
          vaultGetCalled := true, vaultSetCalled := true } ∧
    (∀ l ∈ [({ level := DevCmd.LogLevel.error,
               message := "failed to get credentials from vault: " ++ "vault read failed" } :
              DevCmd.LogEvent)],
        l.level ≠ DevCmd.LogLevel.warn) :=
  c3_amended ("") ("") ("vault read failed") ("u") ("p")
    (Except.error ("disk full")) (Except.ok ()) (Or.inl rfl)

/-- C4 counterexample: GetVersion exhausting the synthetic catalog for build
31Z1 fails with the fixed message "build did not a version", which does not
contain the requested buildID -- refuting that both resolvers report the
failed query parameters. -/
theorem c4_counterexample :
    Download.GetVersion Download.demoRemote ("31Z1") = Except.error ("build did not a version") ∧
    goStringsContains ("build did not a version") ("31Z1") = false := by
  constructor
  · rfl
  · decide

/-- C4 amended: GetBuildID reports its failed query parameters -- its
not-found error message contains both the version and the device identifier --
but GetVersion does not: after exhausting the catalog it fails with the fixed
message "build did not a version", independent of the requested buildID. -/
theorem c4_amended :
    (∀ (remote : Download.Remote) (version identifier : String) (ipsws : List Download.IPSW),
        remote.ipswsByVersion version = Except.ok ipsws →
        (∀ i ∈ ipsws, i.identifier ≠ identifier) →
        ∃ msg, Download.GetBuildID remote version identifier = Except.error msg ∧
          goStringsContains msg version = true ∧ goStringsContains msg identifier = true) ∧
    (∀ (remote : Download.Remote) (buildID : String) (catalog : List Download.Device),
        remote.allDevices = Except.ok catalog →
        (∀ d ∈ catalog, remote.deviceByIdentifier d.identifier = Except.ok d) →
        (∀ d ∈ catalog, ∀ i ∈ d.firmwares, i.buildID ≠ buildID) →
        Download.GetVersion remote buildID = Except.error ("build did not a version")) := by
  constructor
  · intro remote version identifier ipsws hv hnone
    refine ⟨"no build found for version " ++ version ++ " and device " ++ identifier, ?_, ?_, ?_⟩
    · have hfind : ipsws.find? (fun i => i.identifier == identifier) = none :=
        List.find?_eq_none.mpr (fun x hx => by simp [hnone x hx])
      simp [Download.GetBuildID, hv, hfind]
    · rw [String.append_assoc]
      exact goStringsContains_append ("no build found for version ") version
        (" and device " ++ identifier)
    · have h := goStringsContains_append
        ("no build found for version " ++ version ++ " and device ") identifier ("")
      simpa using h
  · intro remote buildID catalog hall hdev hnone
    have hscan := getVersionScan_findSome remote buildID catalog.reverse
      (fun d hd => hdev d (List.mem_reverse.mp hd))
    have hmiss : catalog.reverse.findSome? (fun d =>
        Option.map (fun i => i.version)
          (d.firmwares.find? (fun i => i.buildID == buildID))) = none := by
      apply findSome_eq_none
      intro d hd
      rw [List.find?_eq_none.mpr
        (fun i hi => by simp [hnone d (List.mem_reverse.mp hd) i hi])]
      rfl
    unfold Download.GetVersion Download.GetAllDevices
    rw [hall]
    show Download.GetVersionScan remote buildID catalog.reverse =
      Except.error ("build did not a version")
    simp only [hscan, hmiss]

/-- C4 witness: the amended statement at concrete inputs -- GetBuildID for an
absent version 9.9 and device nope yields a message containing both, and
GetVersion for absent build 31Z0 yields the fixed message. -/
theorem c4_witness :
    (∃ msg, Download.GetBuildID Download.demoRemote ("9.9") ("nope") = Except.error msg ∧
      goStringsContains msg ("9.9") = true ∧ goStringsContains msg ("nope") = true) ∧
    Download.GetVersion Download.demoRemote ("31Z0") = Except.error ("build did not a version") := by
  constructor
  · exact c4_amended.1 Download.demoRemote ("9.9") ("nope") [] rfl
      (fun i hi => absurd hi (List.not_mem_nil i))
  · exact c4_amended.2 Download.demoRemote ("31Z0") Download.demoCatalog rfl
      (by decide) (by decide)

/-- C5: ByProductType orders device records by the composite key built from
the deconstructed product type -- family string, then zero-padded two-digit
major, then zero-padded two-digit minor -- so for the product types
iPhone10,1 / iPhone9,2 / iPad7,1 the sorted order is iPad7,1, iPhone9,2,
iPhone10,1 (09 < 10 numerically despite "10" < "9" lexically unpadded). -/
theorem c5_byProductType_order :
    Xcode.productTypeKey ("iPad7,1") = ("iPad0701") ∧
    Xcode.productTypeKey ("iPhone9,2") = ("iPhone0902") ∧
    Xcode.productTypeKey ("iPhone10,1") = ("iPhone1001") ∧
    Xcode.byProductTypeLess { productType := "iPad7,1" } { productType := "iPhone9,2" } = true ∧
    Xcode.byProductTypeLess { productType := "iPhone9,2" } { productType := "iPhone10,1" } = true ∧
    Xcode.byProductTypeLess { productType := "iPhone10,1" } { productType := "iPhone9,2" } = false ∧
    sortBy Xcode.byProductTypeLess xcodeC5List =
      [{ productType := "iPad7,1" }, { productType := "iPhone9,2" },
       { productType := "iPhone10,1" }] := by
  refine ⟨?_, ?_, ?_, ?_, ?_, ?_, ?_⟩ <;> decide

/-- C6: GetDeviceIPSWs is exactly the spec's convenience projection of
GetDevice: on success it returns the Firmwares field unchanged (identical
contents in identical order) and on failure it propagates the very same
error. -/
theorem c6_getDeviceIPSWs_eq_spec (remote : Download.Remote) (identifier : String) :
    Download.GetDeviceIPSWs remote identifier =
      Download.GetDeviceFirmwaresSpec remote identifier := by
  unfold Download.GetDeviceIPSWs Download.GetDeviceFirmwaresSpec Download.GetDevice
  cases remote.deviceByIdentifier identifier <;> rfl

/-- C7: GetBuildID fetches the firmware list for the version and returns the
BuildID of the first entry whose Identifier matches; when none matches it
fails with the not-found error naming the version and identifier. -/
theorem c7_getBuildID_first_match (remote : Download.Remote) (version identifier : String)
    (ipsws : List Download.IPSW)
    (hv : remote.ipswsByVersion version = Except.ok ipsws) :
    (∀ pre i post, ipsws = pre ++ i :: post → i.identifier = identifier →
        (∀ j ∈ pre, j.identifier ≠ identifier) →
        Download.GetBuildID remote version identifier = Except.ok i.buildID) ∧
    ((∀ i ∈ ipsws, i.identifier ≠ identifier) →
        Download.GetBuildID remote version identifier =
          Except.error ("no build found for version " ++ version ++ " and device " ++ identifier)) := by
  constructor
  · intro pre i post hsplit hi hpre
    subst hsplit
    have hfind := find_first (fun j => j.identifier == identifier) pre i post
      (fun x hx => by simp [hpre x hx]) (by simp [hi])
    simp [Download.GetBuildID, hv, hfind]
  · intro hnone
    have hfind : ipsws.find? (fun i => i.identifier == identifier) = none :=
      List.find?_eq_none.mpr (fun x hx => by simp [hnone x hx])
    simp [Download.GetBuildID, hv, hfind]

/-- C7 witness: in the synthetic remote, build resolution for version 1.0 and
device iPhoneA,1 returns build 20X99, the first (only) match. -/
theorem c7_witness :
    Download.GetBuildID Download.demoRemote ("1.0") ("iPhoneA,1") = Except.ok ("20X99") := by
  have h := (c7_getBuildID_first_match Download.demoRemote ("1.0") ("iPhoneA,1")
      [Download.demoIPSWA] rfl).1 [] Download.demoIPSWA [] rfl rfl
      (fun j hj => absurd hj (List.not_mem_nil j))
  exact h

/-- C8: when the keychain override setting is empty the password callback
prompts, and its message uses the decrypt wording exactly when the vault file
exists at the fixed per-user path at the moment the callback runs, and the
encrypt wording when it does not.  The existence test is an input of the
callback itself (sampled per invocation, i.e. at prompt time); the callback
built at keyring.Open time takes it as an argument rather than capturing a
value checked at Open time. -/
theorem c8_vault_prompt_message (home vaultName : String) (vaultExistsAtCall : Bool)
    (userInput : DevCmd.PromptResult) :
    (DevCmd.keyringOpenPasswordCallback home vaultName ("") vaultExistsAtCall userInput).promptedWith =
      some ((if vaultExistsAtCall then ("Enter a password to decrypt your credentials vault: ")
             else ("Enter a password to encrypt your credentials to vault: ")) ++
            DevCmd.vaultPath home vaultName) := by
  cases vaultExistsAtCall <;> cases userInput <;> rfl

/-- C9: when both username and password are pre-seeded (non-empty), the run
neither reads nor writes the vault, emits no log, and hands exactly the
pre-seeded values to Login, whatever the vault contents, prompt outcomes and
Set result would have been. -/
theorem c9_preseeded_frame (username password : String)
    (ringGet : Except String (Except String DevCmd.DevCreds))
    (promptU promptP : DevCmd.PromptResult) (setRes : Except String Unit)
    (hu : username.length ≠ 0) (hp : password.length ≠ 0) :
    DevCmd.credFlow username password ringGet promptU promptP setRes =
      DevCmd.FlowOutcome.login
        { loginUsername := username, loginPassword := password, logs := [],
          vaultGetCalled := false, vaultSetCalled := false } := by
  unfold DevCmd.credFlow
  rw [if_neg (not_or.mpr ⟨hu, hp⟩)]

/-- C9 witness: concrete pre-seeded credentials u/p with a failing vault and
interrupted prompts still go straight to Login untouched. -/
theorem c9_witness :
    DevCmd.credFlow ("u") ("p") (Except.error ("boom")) DevCmd.PromptResult.interrupted
        DevCmd.PromptResult.interrupted (Except.ok ()) =
      DevCmd.FlowOutcome.login
        { loginUsername := "u", loginPassword := "p", logs := [],
          vaultGetCalled := false, vaultSetCalled := false } :=
  c9_preseeded_frame ("u") ("p") (Except.error ("boom")) DevCmd.PromptResult.interrupted
    DevCmd.PromptResult.interrupted (Except.ok ()) (by decide) (by decide)

/-- C10: the trait-dataset loader is a pure function of the build-time
embedded data (two calls with the same embedded inputs agree -- there is no
cache or mutable state in the embedding because the source has none), and
GetDeviceForProd / GetDeviceForModel return the first record in dataset order
whose ProductType / Target matches, on every call. -/
theorem c10_traitDataset_pure_first_match (gunzipResult : Except String String)
    (jsonDecode : String → Except String (List Xcode.Device))
    (devices : List Xcode.Device) (prod model : String)
    (h : Xcode.GetDevices gunzipResult jsonDecode = Except.ok devices) :
    Xcode.GetDevices gunzipResult jsonDecode = Xcode.GetDevices gunzipResult jsonDecode ∧
    (∀ pre d post, devices = pre ++ d :: post → d.productType = prod →
        (∀ x ∈ pre, x.productType ≠ prod) →
        Xcode.GetDeviceForProd gunzipResult jsonDecode prod = Except.ok d) ∧
    (∀ pre d post, devices = pre ++ d :: post → d.target = model →
        (∀ x ∈ pre, x.target ≠ model) →
        Xcode.GetDeviceForModel gunzipResult jsonDecode model = Except.ok d) := by
  refine ⟨rfl, ?_, ?_⟩
  · intro pre d post hsplit hd hpre
    subst hsplit
    have hfind := find_first (fun x => x.productType == prod) pre d post
      (fun x hx => by simp [hpre x hx]) (by simp [hd])
    simp [Xcode.GetDeviceForProd, h, hfind]
  · intro pre d post hsplit hd hpre
    subst hsplit
    have hfind := find_first (fun x => x.target == model) pre d post
      (fun x hx => by simp [hpre x hx]) (by simp [hd])
    simp [Xcode.GetDeviceForModel, h, hfind]

/-- C10 witness: on the synthetic dataset with two records sharing product
type iPad4,1, GetDeviceForProd returns the first record in dataset order. -/
theorem c10_witness :
    Xcode.GetDeviceForProd xcodeDemoGunzip xcodeDemoDecode ("iPad4,1") =
      Except.ok { target := "J71AP", productType := "iPad4,1" } := by
  have h := (c10_traitDataset_pure_first_match xcodeDemoGunzip xcodeDemoDecode
      xcodeDemoDataset ("iPad4,1") ("J71AP") rfl).2.1
      [] { target := "J71AP", productType := "iPad4,1" }
      [{ target := "J72AP", productType := "iPad4,1" }] rfl rfl
      (fun x hx => absurd hx (List.not_mem_nil x))
  exact h
